import Mathlib

/-
Verification of the fishook dispatcher (src/fishook.py).

The dispatcher resolves the path of a companion shell script
(fishook.sh), spawns an interpreter on it with the caller-supplied
arguments (optionally a fixed git-hook token in front), and exits the
process with the child's exit status.

Embedding conventions:
  - `Ctx` carries the ambient state a run can observe: the resolved
    directory of the fishook.py module (install layout), the process
    environment, the command-line arguments after the program name
    (sys.argv with the first element removed), and file-system existence
    (which the code never consults; it is in the context so that
    independence from it is a statement, not a tautology).
  - The operating system's process-creation facility is a parameter
    `spawn : List String → SpawnOutcome`; `subprocess.call` either
    returns the child's exit status or raises (interpreter not found),
    modelled by the two constructors of `SpawnOutcome`.
  - An uncaught Python exception terminates the interpreter with process
    exit status 1; `raise SystemExit(c)` with an integer terminates with
    status c mod 256. `sysExitStatus` captures both.
-/

namespace Fishook

/-- Outcome of asking the OS to spawn a command line: either the child ran
and exited with a status code (subprocess.call returns it), or process
creation itself failed (subprocess.call raises, e.g. FileNotFoundError). -/
inductive SpawnOutcome where
  | exited (code : Int)
  | spawnError
deriving DecidableEq

/-- The OS process-creation facility, as observed by one run: what happens
for each command line the dispatcher could submit. -/
abbrev Spawn := List String → SpawnOutcome

/-- Ambient state of one dispatcher invocation. -/
structure Ctx where
  /-- Resolved directory of the fishook.py module: `Path(__file__).resolve().parent`. -/
  moduleDir : String
  /-- Process environment: `os.environ.get name = env name`. -/
  env : String → Option String
  /-- Caller-supplied arguments: `sys.argv[1:]`. -/
  argv : List String
  /-- File-system existence of paths. The source never queries it. -/
  fsExists : String → Bool

/-- `_fishook_sh` (src/fishook.py lines 6-10): the module's own resolved
directory joined with the script name. -/
def fishook_sh (ctx : Ctx) : String :=
  ctx.moduleDir ++ "/fishook.sh"

/-- Interpreter selection (src/fishook.py line 16):
`os.environ.get("BASH", "bash")`. -/
def bashInterp (ctx : Ctx) : String :=
  (ctx.env "BASH").getD "bash"

/-- The command line `_run_sh` submits to `subprocess.call`
(src/fishook.py line 17): `[bash, sh, *args]`. -/
def run_sh_cmd (ctx : Ctx) (args : List String) : List String :=
  bashInterp ctx :: fishook_sh ctx :: args

/-- `_run_sh` (src/fishook.py lines 12-17): spawn the command line; return
the child's exit status, or propagate the exception when process creation
fails. -/
def run_sh (spawn : Spawn) (ctx : Ctx) (args : List String) : Except Unit Int :=
  match spawn (run_sh_cmd ctx args) with
  | .exited c => .ok c
  | .spawnError => .error ()

/-- Process exit status of the Python interpreter after `raise
SystemExit(r)` when `r` holds an exit code, or after the exception from a
failed spawn propagated uncaught (CPython then exits with status 1). -/
def sysExitStatus : Except Unit Int → Int
  | .ok c => c % 256
  | .error _ => 1

/-- `main` (src/fishook.py lines 19-21): the command line it spawns. -/
def main_cmdline (ctx : Ctx) : List String :=
  run_sh_cmd ctx ctx.argv

/-- `main` (src/fishook.py lines 19-21): the dispatcher's process exit
status, `raise SystemExit(_run_sh(sys.argv[1:]))`. -/
def main_exit (spawn : Spawn) (ctx : Ctx) : Int :=
  sysExitStatus (run_sh spawn ctx ctx.argv)

/-- `_hook` (src/fishook.py lines 24-25): the command line it spawns,
with the hook token in front of the caller-supplied arguments. -/
def hook_cmdline (ctx : Ctx) (name : String) : List String :=
  run_sh_cmd ctx (name :: ctx.argv)

/-- `_hook` (src/fishook.py lines 24-25): the dispatcher's process exit
status, `raise SystemExit(_run_sh([name, *sys.argv[1:]]))`. -/
def hook_exit (spawn : Spawn) (ctx : Ctx) (name : String) : Int :=
  sysExitStatus (run_sh spawn ctx (name :: ctx.argv))

/-- src/fishook.py line 27. -/
def hook_applypatch_msg (spawn : Spawn) (ctx : Ctx) : Int := hook_exit spawn ctx "applypatch-msg"

/-- src/fishook.py line 28. -/
def hook_pre_applypatch (spawn : Spawn) (ctx : Ctx) : Int := hook_exit spawn ctx "pre-applypatch"

/-- src/fishook.py line 29. -/
def hook_post_applypatch (spawn : Spawn) (ctx : Ctx) : Int := hook_exit spawn ctx "post-applypatch"

/-- src/fishook.py line 31. -/
def hook_pre_commit (spawn : Spawn) (ctx : Ctx) : Int := hook_exit spawn ctx "pre-commit"

/-- src/fishook.py line 32. -/
def hook_pre_merge_commit (spawn : Spawn) (ctx : Ctx) : Int := hook_exit spawn ctx "pre-merge-commit"

/-- src/fishook.py line 33. -/
def hook_prepare_commit_msg (spawn : Spawn) (ctx : Ctx) : Int := hook_exit spawn ctx "prepare-commit-msg"

/-- src/fishook.py line 34. -/
def hook_commit_msg (spawn : Spawn) (ctx : Ctx) : Int := hook_exit spawn ctx "commit-msg"

/-- src/fishook.py line 35. -/
def hook_post_commit (spawn : Spawn) (ctx : Ctx) : Int := hook_exit spawn ctx "post-commit"

/-- src/fishook.py line 37. -/
def hook_pre_rebase (spawn : Spawn) (ctx : Ctx) : Int := hook_exit spawn ctx "pre-rebase"

/-- src/fishook.py line 38. -/
def hook_post_checkout (spawn : Spawn) (ctx : Ctx) : Int := hook_exit spawn ctx "post-checkout"

/-- src/fishook.py line 39. -/
def hook_post_merge (spawn : Spawn) (ctx : Ctx) : Int := hook_exit spawn ctx "post-merge"

/-- src/fishook.py line 40. -/
def hook_post_rewrite (spawn : Spawn) (ctx : Ctx) : Int := hook_exit spawn ctx "post-rewrite"

/-- src/fishook.py line 42. -/
def hook_pre_push (spawn : Spawn) (ctx : Ctx) : Int := hook_exit spawn ctx "pre-push"

/-- src/fishook.py line 43. -/
def hook_pre_auto_gc (spawn : Spawn) (ctx : Ctx) : Int := hook_exit spawn ctx "pre-auto-gc"

/-- src/fishook.py line 45. -/
def hook_pre_receive (spawn : Spawn) (ctx : Ctx) : Int := hook_exit spawn ctx "pre-receive"

/-- src/fishook.py line 46. -/
def hook_update (spawn : Spawn) (ctx : Ctx) : Int := hook_exit spawn ctx "update"

/-- src/fishook.py line 47. -/
def hook_post_receive (spawn : Spawn) (ctx : Ctx) : Int := hook_exit spawn ctx "post-receive"

/-- src/fishook.py line 48. -/
def hook_post_update (spawn : Spawn) (ctx : Ctx) : Int := hook_exit spawn ctx "post-update"

/-- src/fishook.py line 49. -/
def hook_push_to_checkout (spawn : Spawn) (ctx : Ctx) : Int := hook_exit spawn ctx "push-to-checkout"

/-- src/fishook.py line 50. -/
def hook_proc_receive (spawn : Spawn) (ctx : Ctx) : Int := hook_exit spawn ctx "proc-receive"

/-- src/fishook.py line 52. -/
def hook_sendemail_validate (spawn : Spawn) (ctx : Ctx) : Int := hook_exit spawn ctx "sendemail-validate"

/-- src/fishook.py line 53. -/
def hook_fsmonitor_watchman (spawn : Spawn) (ctx : Ctx) : Int := hook_exit spawn ctx "fsmonitor-watchman"

/-- The named-hook entrypoints of src/fishook.py lines 27-53, in source
order, each paired with the token it passes to `_hook`. -/
def hookTable : List (String × (Spawn → Ctx → Int)) :=
  [ ("applypatch-msg", hook_applypatch_msg),
    ("pre-applypatch", hook_pre_applypatch),
    ("post-applypatch", hook_post_applypatch),
    ("pre-commit", hook_pre_commit),
    ("pre-merge-commit", hook_pre_merge_commit),
    ("prepare-commit-msg", hook_prepare_commit_msg),
    ("commit-msg", hook_commit_msg),
    ("post-commit", hook_post_commit),
    ("pre-rebase", hook_pre_rebase),
    ("post-checkout", hook_post_checkout),
    ("post-merge", hook_post_merge),
    ("post-rewrite", hook_post_rewrite),
    ("pre-push", hook_pre_push),
    ("pre-auto-gc", hook_pre_auto_gc),
    ("pre-receive", hook_pre_receive),
    ("update", hook_update),
    ("post-receive", hook_post_receive),
    ("post-update", hook_post_update),
    ("push-to-checkout", hook_push_to_checkout),
    ("proc-receive", hook_proc_receive),
    ("sendemail-validate", hook_sendemail_validate),
    ("fsmonitor-watchman", hook_fsmonitor_watchman) ]

/-- Modelled from the spec: the installed-data resolution strategy of
spec section 4.1, `share/<product-name>/<script-name>` under a
platform-reported installed-data root. No such strategy appears in
src/fishook.py; this definition renders the spec's words so the source
resolver can be compared against it. -/
def installed_data_sh (dataRoot : String) : String :=
  dataRoot ++ "/share/fishook/fishook.sh"

/-- A concrete invocation context used by witnesses. -/
def ctxW : Ctx :=
  { moduleDir := "/opt/pkg/fishook"
    env := fun _ => none
    argv := ["--verbose", "check"]
    fsExists := fun _ => false }

/-- Same module directory as `ctxW`, different environment, arguments and
file system. -/
def ctxV : Ctx :=
  { moduleDir := "/opt/pkg/fishook"
    env := fun _ => some "zsh"
    argv := ["x"]
    fsExists := fun _ => true }

/-- Same module directory, BASH variable and arguments as `ctxW`;
different rest of the environment and different file system. -/
def ctxU : Ctx :=
  { moduleDir := "/opt/pkg/fishook"
    env := fun n => if n = "HOME" then some "/root" else none
    argv := ["--verbose", "check"]
    fsExists := fun _ => true }

/-- Context whose environment sets BASH to the empty string. -/
def ctxE : Ctx :=
  { moduleDir := "/opt/pkg/fishook"
    env := fun n => if n = "BASH" then some "" else none
    argv := []
    fsExists := fun _ => false }

/-- An OS on which every spawn succeeds with status 0. -/
def spawnOk : Spawn := fun _ => .exited 0

/-- An OS on which spawning an empty-named executable fails and every
other spawn succeeds. -/
def spawnNoEmpty : Spawn :=
  fun cmd => if cmd.head? = some "" then .spawnError else .exited 0

/-- C1: invoking `main` with argument sequence A spawns exactly
`[interpreter, script-path] ++ A`: A's elements in their original order
with their original values, nothing added, dropped or reordered, and the
exit status is determined by the spawn of exactly that command line. -/
theorem main_forwards_args_verbatim (ctx : Ctx) :
    main_cmdline ctx = bashInterp ctx :: fishook_sh ctx :: ctx.argv ∧
    (main_cmdline ctx).drop 2 = ctx.argv ∧
    ∀ spawn : Spawn, main_exit spawn ctx =
      sysExitStatus (match spawn (bashInterp ctx :: fishook_sh ctx :: ctx.argv) with
        | .exited c => .ok c
        | .spawnError => .error ()) :=
  ⟨rfl, rfl, fun _ => rfl⟩

/-- C2: a named-hook entrypoint with token `name` and arguments A spawns
`[interpreter, script-path, name] ++ A`: the token is put in front of the
forwarded arguments (e.g. `update` with refs and shas yields
`interp script update refs/heads/main oldsha newsha`). -/
theorem hook_prepends_token (ctx : Ctx) (name : String) :
    hook_cmdline ctx name = bashInterp ctx :: fishook_sh ctx :: name :: ctx.argv ∧
    (hook_cmdline ctx name).drop 2 = name :: ctx.argv :=
  ⟨rfl, rfl⟩

/-- C3: when the child terminates with exit status E, 0 ≤ E ≤ 255, the
dispatcher's own process exit status is exactly E. -/
theorem child_exit_propagated (spawn : Spawn) (ctx : Ctx) (E : Int)
    (h0 : 0 ≤ E) (h1 : E ≤ 255)
    (hs : spawn (main_cmdline ctx) = .exited E) :
    main_exit spawn ctx = E := by
  have hs' : spawn (run_sh_cmd ctx ctx.argv) = .exited E := hs
  unfold main_exit run_sh
  rw [hs']
  exact Int.emod_eq_of_lt h0 (by omega)

/-- Witness for C3 at E = 17. -/
theorem child_exit_propagated_witness :
    main_exit (fun _ => .exited 17) ctxW = 17 :=
  child_exit_propagated (fun _ => .exited 17) ctxW 17 (by decide) (by decide) rfl

/-- C4: the head of the spawned command line is the value of the BASH
environment variable when it is set, and the fixed default name "bash"
when it is unset. -/
theorem interpreter_selection (ctx : Ctx) :
    (main_cmdline ctx).head? = some (match ctx.env "BASH" with
      | some v => v
      | none => "bash") := by
  cases h : ctx.env "BASH" <;>
    simp [main_cmdline, run_sh_cmd, bashInterp, h]

/-- C5: a failed spawn makes the dispatcher exit 1 (the raised exception
propagates uncaught), and a child reporting a failing status 1..255 makes
it exit with that nonzero status: in both shapes of launch failure the
dispatcher never exits 0. -/
theorem spawn_failure_nonzero (spawn : Spawn) (ctx : Ctx) :
    (spawn (main_cmdline ctx) = .spawnError →
      main_exit spawn ctx = 1 ∧ main_exit spawn ctx ≠ 0) ∧
    (∀ c : Int, 1 ≤ c → c ≤ 255 → spawn (main_cmdline ctx) = .exited c →
      main_exit spawn ctx ≠ 0) := by
  constructor
  · intro h
    have h' : spawn (run_sh_cmd ctx ctx.argv) = .spawnError := h
    unfold main_exit run_sh
    rw [h']
    exact ⟨rfl, by decide⟩
  · intro c hc1 hc2 h
    have h' : spawn (run_sh_cmd ctx ctx.argv) = .exited c := h
    unfold main_exit run_sh
    rw [h']
    show c % 256 ≠ 0
    rw [Int.emod_eq_of_lt (by omega) (by omega)]
    omega

/-- Witness for C5: a failing spawn exits 1, and a child exiting 127
makes the dispatcher exit nonzero. -/
theorem spawn_failure_nonzero_witness :
    (main_exit (fun _ => .spawnError) ctxW = 1 ∧
      main_exit (fun _ => .spawnError) ctxW ≠ 0) ∧
    main_exit (fun _ => .exited 127) ctxW ≠ 0 :=
  ⟨(spawn_failure_nonzero (fun _ => .spawnError) ctxW).1 rfl,
   (spawn_failure_nonzero (fun _ => .exited 127) ctxW).2 127
     (by decide) (by decide) rfl⟩

/-- C6 counterexample: the claim says the resolver supports an
installed-data strategy `share/<product-name>/<script-name>` under a data
root; at the concrete layout with module directory "/usr/local" the source
resolver returns the co-located path, which differs from the
installed-data path at that root — the code contains no second strategy. -/
theorem resolver_no_installed_data_cex :
    fishook_sh { moduleDir := "/usr/local", env := fun _ => none,
                 argv := [], fsExists := fun _ => false } = "/usr/local/fishook.sh" ∧
    installed_data_sh "/usr/local" = "/usr/local/share/fishook/fishook.sh" ∧
    fishook_sh { moduleDir := "/usr/local", env := fun _ => none,
                 argv := [], fsExists := fun _ => false } ≠ installed_data_sh "/usr/local" := by
  refine ⟨rfl, rfl, ?_⟩
  decide

/-- C6 amended: the resolver implements only the co-located strategy —
for every layout the script path is the module's own directory joined
with the script name — and its output has the installed-data shape only
in the degenerate case that the module directory itself lies at
`<dataRoot>/share/fishook`. -/
theorem resolver_colocated_only (ctx : Ctx) (dataRoot : String) :
    fishook_sh ctx = ctx.moduleDir ++ "/fishook.sh" ∧
    (fishook_sh ctx = installed_data_sh dataRoot →
      ctx.moduleDir = dataRoot ++ "/share/fishook") := by
  refine ⟨rfl, fun h => ?_⟩
  unfold fishook_sh installed_data_sh at h
  have h2 : ctx.moduleDir ++ "/fishook.sh" = (dataRoot ++ "/share/fishook") ++ "/fishook.sh" := by
    rw [h]
    apply String.ext
    simp [String.data_append]
  have h3 : ctx.moduleDir.data ++ "/fishook.sh".data =
      (dataRoot ++ "/share/fishook").data ++ "/fishook.sh".data := by
    have := congrArg String.data h2
    simpa [String.data_append] using this
  exact String.ext (List.append_cancel_right h3)

/-- Witness for C6 amended: at the layout whose module directory is
"/usr/share/fishook" the resolver's output coincides with the
installed-data path for data root "/usr", and the module directory is
indeed "/usr" joined with "share/fishook". -/
theorem resolver_colocated_only_witness :
    fishook_sh { moduleDir := "/usr/share/fishook", env := fun _ => none,
                 argv := [], fsExists := fun _ => false } =
      "/usr/share/fishook" ++ "/fishook.sh" ∧
    "/usr/share/fishook" = "/usr" ++ "/share/fishook" :=
  ⟨(resolver_colocated_only _ "/usr").1,
   (resolver_colocated_only
      { moduleDir := "/usr/share/fishook", env := fun _ => none,
        argv := [], fsExists := fun _ => false } "/usr").2 (by decide)⟩

/-- C7: the resolver is a total function of the install layout alone: any
two contexts with the same module directory — whatever their environment,
arguments or file system — get the same script path, and no existence
check is performed (the result does not depend on `fsExists`). -/
theorem resolver_pure (ctx ctx' : Ctx) (h : ctx.moduleDir = ctx'.moduleDir) :
    fishook_sh ctx = fishook_sh ctx' := by
  unfold fishook_sh
  rw [h]

/-- Witness for C7: two contexts sharing a module directory but differing
in environment, arguments and file system resolve to the same path. -/
theorem resolver_pure_witness : fishook_sh ctxW = fishook_sh ctxV :=
  resolver_pure ctxW ctxV rfl

/-- C8: the named-hook entrypoints are exactly the 22 listed ones, in
source order, and each behaves exactly like `main` run with its own token
placed in front of the caller-supplied arguments — no other difference. -/
theorem hook_entrypoints_exact :
    hookTable.map Prod.fst =
      ["applypatch-msg", "pre-applypatch", "post-applypatch", "pre-commit",
       "pre-merge-commit", "prepare-commit-msg", "commit-msg", "post-commit",
       "pre-rebase", "post-checkout", "post-merge", "post-rewrite", "pre-push",
       "pre-auto-gc", "pre-receive", "update", "post-receive", "post-update",
       "push-to-checkout", "proc-receive", "sendemail-validate",
       "fsmonitor-watchman"] ∧
    hookTable.length = 22 ∧
    ∀ p ∈ hookTable, ∀ (spawn : Spawn) (ctx : Ctx),
      p.2 spawn ctx = main_exit spawn { ctx with argv := p.1 :: ctx.argv } := by
  refine ⟨rfl, rfl, ?_⟩
  intro p hp spawn ctx
  simp only [hookTable] at hp
  fin_cases hp <;> rfl

/-- Witness for C8 at the first listed hook. -/
theorem hook_entrypoints_exact_witness :
    hook_applypatch_msg spawnOk ctxW =
      main_exit spawnOk { ctxW with argv := "applypatch-msg" :: ctxW.argv } :=
  hook_entrypoints_exact.2.2 ("applypatch-msg", hook_applypatch_msg)
    (List.Mem.head _) spawnOk ctxW

/-- C9: when BASH is set to the empty string, the empty string — not the
default "bash" — is placed first in the command line, and on an OS where
an empty executable name cannot be spawned the dispatcher exits 1. -/
theorem empty_bash_env_not_default (ctx : Ctx) (spawn : Spawn)
    (henv : ctx.env "BASH" = some "")
    (hos : ∀ cmd : List String, cmd.head? = some "" → spawn cmd = .spawnError) :
    bashInterp ctx = "" ∧
    bashInterp ctx ≠ "bash" ∧
    (main_cmdline ctx).head? = some "" ∧
    main_exit spawn ctx = 1 := by
  have hb : bashInterp ctx = "" := by simp [bashInterp, henv]
  refine ⟨hb, by rw [hb]; decide, by simp [main_cmdline, run_sh_cmd, hb], ?_⟩
  have hsp : spawn (run_sh_cmd ctx ctx.argv) = .spawnError :=
    hos _ (by simp [run_sh_cmd, hb])
  unfold main_exit run_sh
  rw [hsp]
  rfl

/-- Witness for C9 at a context with BASH set empty and an OS that
refuses empty executable names. -/
theorem empty_bash_env_not_default_witness :
    bashInterp ctxE = "" ∧
    bashInterp ctxE ≠ "bash" ∧
    (main_cmdline ctxE).head? = some "" ∧
    main_exit spawnNoEmpty ctxE = 1 :=
  empty_bash_env_not_default ctxE spawnNoEmpty rfl
    (fun cmd h => by simp [spawnNoEmpty, h])

/-- C10: the spawned command line is a deterministic function of the BASH
environment variable, the module's install location and the caller
arguments — contexts agreeing on all three yield identical command lines
— and its first two positions (interpreter and script path) do not depend
on the caller arguments at all. -/
theorem cmdline_deterministic (ctx ctx' : Ctx)
    (henv : ctx.env "BASH" = ctx'.env "BASH")
    (hdir : ctx.moduleDir = ctx'.moduleDir) :
    (main_cmdline ctx).take 2 = (main_cmdline ctx').take 2 ∧
    (ctx.argv = ctx'.argv → main_cmdline ctx = main_cmdline ctx') := by
  have hb : bashInterp ctx = bashInterp ctx' := by simp [bashInterp, henv]
  have hf : fishook_sh ctx = fishook_sh ctx' := by simp [fishook_sh, hdir]
  constructor
  · simp [main_cmdline, run_sh_cmd, hb, hf]
  · intro ha
    simp [main_cmdline, run_sh_cmd, hb, hf, ha]

/-- Witness for C10: two contexts agreeing on BASH, module directory and
arguments but differing elsewhere in the environment and on the file
system produce identical command lines. -/
theorem cmdline_deterministic_witness :
    (main_cmdline ctxW).take 2 = (main_cmdline ctxU).take 2 ∧
    main_cmdline ctxW = main_cmdline ctxU :=
  ⟨(cmdline_deterministic ctxW ctxU rfl rfl).1,
   (cmdline_deterministic ctxW ctxU rfl rfl).2 rfl⟩

end Fishook
